import Mathlib

/-!
Verification of the RSVP capacity-enforcement and notification-fanout
pipeline of the Silicon-Savannah-Community-Hub backend, as a shallow
embedding of the Python sources:

* `app/db/models/{event,rsvp,user}.py` — the data model;
* `app/db/repositories/__init__.py` — `get_event_rsvp_count`,
  `get_event`, `list_events`, `create_rsvp`;
* `app/cache/redis_client.py` and `app/cache/cache_decorators.py` — the
  Redis keyspace, `delete` / `delete_pattern`, and the `cached` decorator's
  key scheme;
* `app/services/rsvp_service.py` and `app/events/{publisher,consumer}.py`
  — the publish call, `handle_message` and the bounded connect retry of
  `run_worker`;
* `app/websocket/manager.py` — the `ConnectionManager` registry.

Identifiers (UUIDs in the code) are modelled as naturals, database rows as
lists of records, and each operation returns its post-state explicitly.
-/

namespace SiliconSavannah

/-- RSVP status enum (`app/db/models/rsvp.py`, `RSVPStatusEnum`). -/
inductive RSVPStatusEnum where
  | going
  | interested
  | cancelled
  deriving DecidableEq, Repr

/-- Event row (`app/db/models/event.py`). `capacity` is a nullable integer
column, kept as `Option Int` so the Python truthiness test
`event.capacity and event.capacity > 0` can be rendered exactly. Columns no
verified operation reads (`starts_at`, `created_at` timestamps) are elided;
`description`, `location`, `category` are carried as plain payload so the
row dictionaries below keep their shape. -/
structure Event where
  id : Nat
  title : String
  description : Option String := none
  location : Option String := none
  capacity : Option Int := some 0
  category : Option String := none
  created_by : Nat
  deriving DecidableEq, Repr

/-- User row (`app/db/models/user.py`); only the fields the pipeline reads. -/
structure User where
  id : Nat
  email : String
  deriving DecidableEq, Repr

/-- RSVP row (`app/db/models/rsvp.py`). -/
structure RSVP where
  id : Nat
  user_id : Nat
  event_id : Nat
  status : RSVPStatusEnum
  deriving DecidableEq, Repr

/-- The relational store: the three tables the pipeline touches. -/
structure DB where
  users : List User := []
  events : List Event := []
  rsvps : List RSVP := []
  deriving DecidableEq, Repr

/-- Embeds `get_event_rsvp_count` (repository, lines 217-224): the count of
rows whose `event_id` matches and whose status is `going`. -/
def get_event_rsvp_count (db : DB) (event_id : Nat) : Nat :=
  (db.rsvps.filter
    (fun r => r.event_id == event_id && r.status == RSVPStatusEnum.going)).length

/-- The available-spots computation repeated in `list_events` (lines
136-138) and `get_event` (lines 198-200): `max(0, capacity - rsvp_count)`
when the capacity column is truthy and positive, the JSON null otherwise. -/
def available_spots (capacity : Option Int) (rsvp_count : Nat) : Option Int :=
  match capacity with
  | none => none
  | some c =>
    if c != 0 && decide (0 < c) then some (max 0 (c - (rsvp_count : Int)))
    else none

/-- The event dictionary `list_events` / `get_event` build for caching. -/
structure EventView where
  id : Nat
  title : String
  description : Option String
  location : Option String
  capacity : Option Int
  category : Option String
  created_by : Nat
  available_spots : Option Int
  deriving DecidableEq, Repr

/-- One row rendered as its cached dictionary, with `available_spots`
computed from the current going count — the loop body of `list_events` and
the hit branch of `get_event`. -/
def eventToView (db : DB) (ev : Event) : EventView :=
  { id := ev.id, title := ev.title, description := ev.description,
    location := ev.location, capacity := ev.capacity, category := ev.category,
    created_by := ev.created_by,
    available_spots := available_spots ev.capacity (get_event_rsvp_count db ev.id) }

/-- Embeds the body of `get_event` (repository, lines 190-215): the first
event row with the given primary key, rendered as its dictionary. -/
def get_event (db : DB) (event_id : Nat) : Option EventView :=
  match db.events.find? (fun e => e.id == event_id) with
  | none => none
  | some ev => some (eventToView db ev)

/-- Embeds the body of `list_events` (repository, lines 91-153): filter by
creator when given, paginate with OFFSET then LIMIT, render each row. The
`created_at` ordering and the `starts_at` / `category` / full-text-search
filters are elided: they select rows but do not change how a selected row
is rendered. -/
def list_events (db : DB) (limit : Nat := 20) (offset : Nat := 0)
    (created_by : Option Nat := none) : List EventView :=
  let rows := match created_by with
    | none => db.events
    | some uid => db.events.filter (fun e => e.created_by == uid)
  ((rows.drop offset).take limit).map (eventToView db)

/-- A document the caching layer stores: the detail dictionary of
`get_event` (the serialized null of a missing event included) or a list
result of `list_events`. -/
inductive CacheVal where
  | detail : Option EventView → CacheVal
  | listing : List EventView → CacheVal
  deriving DecidableEq, Repr

/-- The Redis keyspace (`app/cache/redis_client.py`), keys to JSON
documents, held structurally. TTLs are elided: no verified property
depends on expiry. -/
structure RedisState where
  store : List (String × CacheVal) := []
  deriving DecidableEq, Repr

/-- Embeds `RedisCache.get`: the parsed document, or `none` on a missing
key or on any client exception (`failing` models the underlying redis
client raising; the wrapper catches, logs and returns None). -/
def RedisCache.get (failing : Bool) (st : RedisState) (key : String) :
    Option CacheVal :=
  if failing then none
  else
    match st.store.find? (fun p => p.1 == key) with
    | some p => some p.2
    | none => none

/-- Embeds `RedisCache.set` (SETEX): overwrite the key, report success;
on a client exception the state is untouched and False is returned. -/
def RedisCache.set (failing : Bool) (st : RedisState) (key : String)
    (v : CacheVal) : RedisState × Bool :=
  if failing then (st, false)
  else ({ store := st.store.filter (fun p => p.1 != key) ++ [(key, v)] }, true)

/-- Embeds `RedisCache.delete` (lines 72-88): DEL the key and report True;
any client exception is caught and reported as False with the keyspace
untouched. Deleting an absent key is the same DEL call. -/
def RedisCache.delete (failing : Bool) (st : RedisState) (key : String) :
    RedisState × Bool :=
  if failing then (st, false)
  else ({ store := st.store.filter (fun p => p.1 != key) }, true)

/-- Whether the first character list is an initial segment of the second,
character by character. -/
def charListStarts : List Char → List Char → Bool
  | [], _ => true
  | _ :: _, [] => false
  | c :: cs, k :: ks => c == k && charListStarts cs ks

/-- Redis KEYS glob matching, for the two shapes of pattern this code base
issues: a literal key, or a literal stem followed by a trailing star. -/
def globMatch (pat key : String) : Bool :=
  match pat.data.reverse with
  | '*' :: stemRev => charListStarts stemRev.reverse key.data
  | _ => key == pat

/-- Embeds `RedisCache.delete_pattern` (lines 90-108): KEYS then DEL of the
matches, returning how many were deleted (0 when none matched); any client
exception is caught and reported as 0 with the keyspace untouched. -/
def RedisCache.delete_pattern (failing : Bool) (st : RedisState)
    (pat : String) : RedisState × Nat :=
  if failing then (st, 0)
  else
    let matched := st.store.filter (fun p => globMatch pat p.1)
    ({ store := st.store.filter (fun p => !globMatch pat p.1) }, matched.length)

/-- The cache key the `cached` decorator computes
(`app/cache/cache_decorators.py`, lines 25-47): the key stem, a colon, and
the digest of the session-stripped argument list. `_generate_key_from_args`
serializes the arguments to a JSON document and MD5-hexes it; that
composite is the `digest` parameter here, and the development only ever
uses the shape of its output (an MD5 hex digest is 32 characters). -/
def cacheKey (digest : List String → String) (keyStem : String)
    (args : List String) : String :=
  keyStem ++ ":" ++ digest args

/-- Python `str` of the optional creator filter argument, as it reaches the
decorator's key serialization. -/
def optArgStr : Option Nat → String
  | none => "None"
  | some n => toString n

/-- `get_event` as called through `cached('events:detail', expire=300)`:
probe the computed key, return the stored document when it is a non-null
detail document (the decorator's `cached_value is not None` test), else run
the body and store its result. Only states this code base reaches are
modelled: a key written with the detail stem holds a detail document. -/
def get_event_cached (digest : List String → String) (failing : Bool)
    (st : RedisState) (db : DB) (event_id : Nat) :
    Option EventView × RedisState :=
  let key := cacheKey digest "events:detail" [toString event_id]
  match RedisCache.get failing st key with
  | some (CacheVal.detail (some v)) => (some v, st)
  | _ =>
    let result := get_event db event_id
    (result, (RedisCache.set failing st key (CacheVal.detail result)).1)

/-- `list_events` as called through `cached('events:list', expire=300)`: a
stored list document (an empty list included — it is not None) is a hit. -/
def list_events_cached (digest : List String → String) (failing : Bool)
    (st : RedisState) (db : DB) (limit : Nat := 20) (offset : Nat := 0)
    (created_by : Option Nat := none) : List EventView × RedisState :=
  let key := cacheKey digest "events:list"
    [toString limit, toString offset, optArgStr created_by]
  match RedisCache.get failing st key with
  | some (CacheVal.listing vs) => (vs, st)
  | _ =>
    let result := list_events db limit offset created_by
    (result, (RedisCache.set failing st key (CacheVal.listing result)).1)

/-- The typed failures `create_rsvp` raises as HTTPExceptions. -/
inductive RSVPError where
  | NotFound
  | CapacityExceeded
  | DuplicateRSVP
  deriving DecidableEq, Repr

/-- The HTTP status code each failure carries (repository, lines 240, 246,
262). -/
def RSVPError.httpStatus : RSVPError → Nat
  | RSVPError.NotFound => 404
  | RSVPError.CapacityExceeded => 400
  | RSVPError.DuplicateRSVP => 409

/-- `RSVPCreate` (`app/schemas/__init__.py`): event id plus a status
defaulting to going. -/
structure RSVPCreate where
  event_id : Nat
  status : RSVPStatusEnum := RSVPStatusEnum.going
  deriving DecidableEq, Repr

/-- Python truthiness of the nullable capacity column followed by
`event.capacity > 0` (repository, line 243). -/
def capacityTruthyPositive (capacity : Option Int) : Bool :=
  match capacity with
  | none => false
  | some c => c != 0 && decide (0 < c)

/-- The capacity pre-check guard of `create_rsvp` (lines 243-245): the
event has a truthy positive capacity, the requested status is going, and
the current going count has reached the capacity. -/
def capacityCheckFires (db : DB) (event : Event) (payload : RSVPCreate) :
    Bool :=
  capacityTruthyPositive event.capacity
    && (payload.status == RSVPStatusEnum.going)
    && decide ((event.capacity.getD 0)
          ≤ (get_event_rsvp_count db payload.event_id : Int))

/-- Embeds `create_rsvp` (repository, lines 226-273). The result also
carries the post states of the database and of the cache, so the theorems
can speak about rows inserted and keys evicted; a raised HTTPException
leaves both unchanged. The commit-time unique constraint
`uq_user_event_rsvp` (`app/db/models/rsvp.py`, lines 26-30) is the check on
the (user_id, event_id) pair: a clash raises IntegrityError, which the code
rolls back and re-raises as the 409 DuplicateRSVP. The uuid4 for the new
row arrives as `new_id`; `cacheFailing` models the redis client raising
inside the (exception-swallowing) eviction calls. -/
def create_rsvp (db : DB) (st : RedisState) (user_id : Nat)
    (payload : RSVPCreate) (new_id : Nat) (cacheFailing : Bool := false) :
    Except RSVPError RSVP × DB × RedisState :=
  match db.events.find? (fun e => e.id == payload.event_id) with
  | none => (Except.error RSVPError.NotFound, db, st)
  | some event =>
    if capacityCheckFires db event payload then
      (Except.error RSVPError.CapacityExceeded, db, st)
    else if db.rsvps.any
        (fun r => r.user_id == user_id && r.event_id == payload.event_id) then
      (Except.error RSVPError.DuplicateRSVP, db, st)
    else
      let r : RSVP := { id := new_id, user_id := user_id,
                        event_id := payload.event_id, status := payload.status }
      let db' : DB := { db with rsvps := db.rsvps ++ [r] }
      let st1 := (RedisCache.delete_pattern cacheFailing st "events:list:*").1
      let st2 := (RedisCache.delete cacheFailing st1
        ("events:detail:" ++ toString payload.event_id)).1
      (Except.ok r, db', st2)

/-- A message published onto the communityhub.events topic exchange
(`app/events/publisher.py`): routing key plus the JSON payload fields the
rsvp.created producer sets. -/
structure PubMsg where
  routing_key : String
  typ : String
  rsvp_id : Nat
  user_id : Nat
  event_id : Nat
  deriving DecidableEq, Repr

/-- Embeds `RSVPService.create_rsvp` (`app/services/rsvp_service.py`): the
repository insert, then one `publish_event("rsvp.created", ...)` call; an
exception from the repository propagates before any publish. The final list
collects the publish calls made. -/
def RSVPService.create_rsvp (db : DB) (st : RedisState) (user_id : Nat)
    (payload : RSVPCreate) (new_id : Nat) :
    Except RSVPError RSVP × DB × RedisState × List PubMsg :=
  match SiliconSavannah.create_rsvp db st user_id payload new_id with
  | (Except.ok r, db', st') =>
    (Except.ok r, db', st',
      [{ routing_key := "rsvp.created", typ := "rsvp.created",
         rsvp_id := r.id, user_id := user_id, event_id := r.event_id }])
  | (Except.error e, db', st') => (Except.error e, db', st', [])

/-- A decoded message body reaching `handle_message`
(`app/events/consumer.py`): the type tag and the two ids the rsvp.created
payload carries. -/
structure NotifBody where
  typ : String
  event_id : Nat
  user_id : Nat
  deriving DecidableEq, Repr

/-- A payload handed to `manager.send_personal_message`: the notification
to the event creator, or the confirmation to the RSVP user. -/
inductive PushPayload where
  | rsvpCreated (event_id : Nat) (event_title : String)
      (user_email : Option String)
  | rsvpConfirmation (event_title : String)
  deriving DecidableEq, Repr

/-- Embeds `handle_message` (consumer, lines 10-26): for a rsvp.created
body, look the event and the user up; when the event row exists, one push
to the event creator and one confirmation push to the RSVP user, in that
order. The returned list is the sequence of `manager.send_personal_message`
calls the handler makes. -/
def handle_message (db : DB) (body : NotifBody) : List (Nat × PushPayload) :=
  if body.typ == "rsvp.created" then
    match db.events.find? (fun e => e.id == body.event_id) with
    | some ev =>
      let usr := db.users.find? (fun u => u.id == body.user_id)
      [(ev.created_by,
          PushPayload.rsvpCreated body.event_id ev.title
            (usr.map (fun u => u.email))),
       (body.user_id, PushPayload.rsvpConfirmation ev.title)]
    | none => []
  else []

/-- The bounded connect loop of `run_worker` (consumer, lines 29-41),
attempts numbered from 1: `connects k` says whether attempt k reaches the
broker. On success the loop breaks with that attempt; a failure at the last
allowed attempt re-raises (here the base case, reached when the budget is
spent). The fixed 5-second sleep between attempts has no further effect. -/
def connectLoop (connects : Nat → Bool) : Nat → Nat → Except Unit Nat
  | _, 0 => Except.error ()
  | attempt, r + 1 =>
    if connects attempt then Except.ok attempt
    else connectLoop connects (attempt + 1) r

/-- `run_worker`'s connection establishment: `max_retries = 10` attempts
starting at attempt 1. -/
def run_worker_connect (connects : Nat → Bool) : Except Unit Nat :=
  connectLoop connects 1 10

/-- Python dict lookup `self.active.get(user_id, [])`
(`app/websocket/manager.py`); the dict is an association list read at the
first matching key. -/
def dictGet (d : List (String × List Nat)) (k : String) : List Nat :=
  match d.find? (fun p => p.1 == k) with
  | some p => p.2
  | none => []

/-- Python `user_id in self.active`. -/
def dictHasKey (d : List (String × List Nat)) (k : String) : Bool :=
  d.any (fun p => p.1 == k)

/-- Python dict assignment `self.active[user_id] = conns`: overwrite the
existing entry, else append a new one. -/
def dictSet (d : List (String × List Nat)) (k : String) (v : List Nat) :
    List (String × List Nat) :=
  if dictHasKey d k then d.map (fun p => if p.1 == k then (k, v) else p)
  else d ++ [(k, v)]

/-- Python `self.active.pop(user_id, None)`. -/
def dictPop (d : List (String × List Nat)) (k : String) :
    List (String × List Nat) :=
  d.filter (fun p => p.1 != k)

/-- One websocket's observable state: `broken` says `send_text` raises;
`received` the texts it accepted; `closed` whether `close` was called. -/
structure WSState where
  broken : Bool := false
  received : List String := []
  closed : Bool := false
  deriving DecidableEq, Repr

/-- `ConnectionManager` (`app/websocket/manager.py`): the `active` map from
user id to the list of socket handles, plus the store of socket states the
handles point into. The `websocket.accept()` handshake and the
asyncio.Lock are elided: every verified property is about one mutation at
a time, which is what the lock enforces. -/
structure ManagerState where
  active : List (String × List Nat) := []
  sockets : List (Nat × WSState) := []
  deriving DecidableEq, Repr

/-- Embeds `ConnectionManager.connect` (lines 12-17): append the socket to
the user's list and write the list back. -/
def ConnectionManager.connect (m : ManagerState) (user_id : String)
    (ws : Nat) : ManagerState :=
  { m with active := dictSet m.active user_id (dictGet m.active user_id ++ [ws]) }

/-- Embeds `ConnectionManager.disconnect` (lines 19-27): drop the socket
from the user's list if present; write the list back when sockets remain,
else pop the user entry. -/
def ConnectionManager.disconnect (m : ManagerState) (user_id : String)
    (ws : Nat) : ManagerState :=
  let conns := (dictGet m.active user_id).erase ws
  if conns.isEmpty then { m with active := dictPop m.active user_id }
  else { m with active := dictSet m.active user_id conns }

/-- The effect of `ws.send_text(data)` with the surrounding try/except on
one socket handle: a broken socket's send raises and the except branch
calls `close` (itself guarded); a live socket records the text. -/
def sendTo (sockets : List (Nat × WSState)) (ws : Nat) (data : String) :
    List (Nat × WSState) :=
  sockets.map (fun p =>
    if p.1 == ws then
      if p.2.broken then (p.1, { p.2 with closed := true })
      else (p.1, { p.2 with received := p.2.received ++ [data] })
    else p)

/-- Embeds `ConnectionManager.send_personal_message` (lines 29-40): fan the
serialized message out to each of the user's sockets in turn; a failing
send is answered by closing that socket and the loop continues. The
registry map `active` is not touched. -/
def ConnectionManager.send_personal_message (m : ManagerState)
    (user_id : String) (data : String) : ManagerState :=
  { m with sockets :=
      (dictGet m.active user_id).foldl (fun s ws => sendTo s ws data) m.sockets }

/-- A registry mutation: the two operations the claim's invariant ranges
over. -/
inductive RegOp where
  | connect (user_id : String) (ws : Nat)
  | disconnect (user_id : String) (ws : Nat)
  deriving DecidableEq, Repr

def applyRegOp (m : ManagerState) : RegOp → ManagerState
  | RegOp.connect u w => ConnectionManager.connect m u w
  | RegOp.disconnect u w => ConnectionManager.disconnect m u w

def applyRegOps (m : ManagerState) (ops : List RegOp) : ManagerState :=
  ops.foldl applyRegOp m

deriving instance DecidableEq for Except

/-- The (user_id, event_id) clash the `uq_user_event_rsvp` constraint
forbids, between two rows. -/
def samePair (x r : RSVP) : Bool :=
  x.user_id == r.user_id && x.event_id == r.event_id

/-- The storage invariant of the unique constraint: no two rows of the
rsvps table share a (user_id, event_id) pair. -/
def uniquePairs : List RSVP → Bool
  | [] => true
  | r :: rest => !(rest.any (fun x => samePair x r)) && uniquePairs rest

/-- Classifier for the statement of the fan-out property: the notification
payload pushed to the event creator. -/
def PushPayload.isNotif : PushPayload → Bool
  | PushPayload.rsvpCreated _ _ _ => true
  | PushPayload.rsvpConfirmation _ => false

/-- Classifier for the statement of the fan-out property: the confirmation
payload pushed to the RSVP user. -/
def PushPayload.isConf : PushPayload → Bool
  | PushPayload.rsvpCreated _ _ _ => false
  | PushPayload.rsvpConfirmation _ => true

/-- The registry invariant of the claim: no user entry holds an empty
socket list. -/
def registryWF (m : ManagerState) : Bool :=
  m.active.all (fun p => !p.2.isEmpty)

/-- A stand-in for the decorator's serialize-and-MD5 digest with the one
property of MD5 the code's key scheme rests on: every output is a
32-character hex string. -/
def hexDigest32 (_ : List String) : String :=
  "0123456789abcdef0123456789abcdef"

/-- Concrete fixture: one event of capacity 5 and no RSVPs. -/
def bugDB : DB :=
  { events := [{ id := 1, title := "Meetup", capacity := some 5,
                 created_by := 2 }] }

/-- The cache after one cached `list_events` call and one cached
`get_event` call against `bugDB`: the two keys the caching layer actually
writes. -/
def bugCache : RedisState :=
  (get_event_cached hexDigest32 false
    (list_events_cached hexDigest32 false { store := [] } bugDB 20 0 none).2
    bugDB 1).2

/-- Concrete fixture: a capacity-1 event already holding user 10's going
RSVP, for the repeat-RSVP call. -/
def dupDB : DB :=
  { events := [{ id := 1, title := "Meetup", capacity := some 1,
                 created_by := 5 }],
    rsvps := [{ id := 7, user_id := 10, event_id := 1,
                status := RSVPStatusEnum.going }] }

/-- Concrete fixture: one capacity-1 event with no RSVPs yet. -/
def seqDB : DB :=
  { events := [{ id := 2, title := "Walk", capacity := some 1,
                 created_by := 3 }] }

/-- Concrete fixture: user "u" holds two sockets, the first of which fails
writes. -/
def twoSockMgr : ManagerState :=
  { active := [("u", [1, 2])],
    sockets := [(1, { broken := true }), (2, { broken := false })] }

/-! Helper lemmas. -/

theorem beqNatComm (a b : Nat) : (a == b) = (b == a) := by
  by_cases h : a = b
  · subst h; rfl
  · simp [h, Ne.symm h]

theorem samePair_comm (x r : RSVP) : samePair x r = samePair r x := by
  rw [samePair, samePair, beqNatComm x.user_id r.user_id,
    beqNatComm x.event_id r.event_id]

theorem get_event_rsvp_count_append (db : DB) (l : List RSVP) (eid : Nat) :
    get_event_rsvp_count { db with rsvps := db.rsvps ++ l } eid
      = get_event_rsvp_count db eid
        + (l.filter (fun r =>
            r.event_id == eid && r.status == RSVPStatusEnum.going)).length := by
  simp [get_event_rsvp_count, List.filter_append]

/-! C8 — bounded broker-connection retry. -/

theorem connectLoop_ok (c : Nat → Bool) :
    ∀ r a k, connectLoop c a r = Except.ok k →
      a ≤ k ∧ k < a + r ∧ c k = true
        ∧ ∀ j, a ≤ j → j < k → c j = false := by
  intro r
  induction r with
  | zero => intro a k h; simp [connectLoop] at h
  | succ n ih =>
    intro a k h
    rw [show connectLoop c a (n + 1)
        = if c a then Except.ok a else connectLoop c (a + 1) n from rfl] at h
    by_cases hc : c a = true
    · rw [if_pos hc] at h
      cases h
      exact ⟨Nat.le_refl a, by omega, hc,
        fun j hj hjk => absurd hjk (by omega)⟩
    · rw [if_neg hc] at h
      obtain ⟨h1, h2, h3, h4⟩ := ih (a + 1) k h
      refine ⟨by omega, by omega, h3, ?_⟩
      intro j hj hjk
      by_cases hja : j = a
      · subst hja
        exact Bool.not_eq_true (c j) ▸ hc
      · exact h4 j (by omega) hjk

theorem connectLoop_error (c : Nat → Bool) :
    ∀ r a, connectLoop c a r = Except.error ()
      ↔ ∀ j, a ≤ j → j < a + r → c j = false := by
  intro r
  induction r with
  | zero =>
    intro a
    simp only [connectLoop]
    constructor
    · intro _ j h1 h2
      exact absurd h2 (by omega)
    · intro _; trivial
  | succ n ih =>
    intro a
    rw [show connectLoop c a (n + 1)
        = if c a then Except.ok a else connectLoop c (a + 1) n from rfl]
    by_cases hc : c a = true
    · rw [if_pos hc]
      constructor
      · intro h; exact Except.noConfusion h
      · intro hall
        have h2 := hall a (Nat.le_refl a) (by omega)
        rw [hc] at h2
        exact Bool.noConfusion h2
    · rw [if_neg hc, ih (a + 1)]
      have hca : c a = false := Bool.not_eq_true (c a) ▸ hc
      constructor
      · intro hall j hj1 hj2
        by_cases hja : j = a
        · subst hja; exact hca
        · exact hall j (by omega) (by omega)
      · intro hall j hj1 hj2
        exact hall j (by omega) (by omega)

/-- C8: run_worker's broker connection establishment makes at most 10
attempts with a fixed delay: a successful result is the first succeeding
attempt (every earlier attempt failed, and nothing past it is tried), and
the loop raises fatally exactly when all 10 attempts fail. -/
theorem C8_bounded_retry (connects : Nat → Bool) :
    (∀ k, run_worker_connect connects = Except.ok k →
        1 ≤ k ∧ k ≤ 10 ∧ connects k = true
          ∧ ∀ j, 1 ≤ j → j < k → connects j = false)
    ∧ (run_worker_connect connects = Except.error ()
        ↔ ∀ j, 1 ≤ j → j ≤ 10 → connects j = false) := by
  constructor
  · intro k h
    obtain ⟨h1, h2, h3, h4⟩ := connectLoop_ok connects 10 1 k h
    exact ⟨h1, by omega, h3, h4⟩
  · rw [show run_worker_connect connects = connectLoop connects 1 10 from rfl,
      connectLoop_error connects 10 1]
    constructor
    · intro hall j hj1 hj2
      exact hall j hj1 (by omega)
    · intro hall j hj1 hj2
      exact hall j hj1 (by omega)

/-! C7 — cache invalidation is idempotent and never propagates. -/

/-- C7: deleting an absent key reports success and leaves the keyspace
unchanged; a pattern matching no keys deletes nothing and reports 0;
delete is idempotent; and when the underlying client raises, delete and
delete_pattern return (False / 0) instead of propagating. -/
theorem C7_invalidation_idempotent (st : RedisState) (key pat : String)
    (habsent : ∀ p ∈ st.store, (p.1 != key) = true)
    (hnomatch : ∀ p ∈ st.store, globMatch pat p.1 = false) :
    RedisCache.delete false st key = (st, true)
    ∧ RedisCache.delete_pattern false st pat = (st, 0)
    ∧ (∀ st2 k2, RedisCache.delete false (RedisCache.delete false st2 k2).1 k2
        = RedisCache.delete false st2 k2)
    ∧ (∀ st2 k2, RedisCache.delete true st2 k2 = (st2, false))
    ∧ (∀ st2 p2, RedisCache.delete_pattern true st2 p2 = (st2, 0)) := by
  refine ⟨?_, ?_, ?_, fun st2 k2 => rfl, fun st2 p2 => rfl⟩
  · have h1 : st.store.filter (fun p => p.1 != key) = st.store :=
      List.filter_eq_self.mpr habsent
    simp [RedisCache.delete, h1]
  · have h2 : st.store.filter (fun p => globMatch pat p.1) = [] := by
      simp only [List.filter_eq_nil_iff]
      intro p hp
      simp [hnomatch p hp]
    have h3 : st.store.filter (fun p => !globMatch pat p.1) = st.store := by
      refine List.filter_eq_self.mpr ?_
      intro p hp
      simp [hnomatch p hp]
    simp [RedisCache.delete_pattern, h2, h3]
  · intro st2 k2
    simp [RedisCache.delete, List.filter_filter]

theorem C7_invalidation_idempotent_witness :
    RedisCache.delete false
        { store := [("events:detail:a", CacheVal.detail none)] } "events:detail:b"
      = ({ store := [("events:detail:a", CacheVal.detail none)] }, true)
    ∧ RedisCache.delete_pattern false
        { store := [("events:detail:a", CacheVal.detail none)] } "events:count:*"
      = ({ store := [("events:detail:a", CacheVal.detail none)] }, 0) :=
  have h := C7_invalidation_idempotent
    { store := [("events:detail:a", CacheVal.detail none)] }
    "events:detail:b" "events:count:*" (by decide) (by decide)
  ⟨h.1, h.2.1⟩

/-! C3 — the post-write cache invalidation misses the key the caching
layer wrote for the event detail. -/

/-- C3: against `bugDB` with both cache entries populated, a successful
create_rsvp evicts every events:list entry, but the detail entry survives,
because the code deletes the key "events:detail:" followed by the raw event
id while the decorator keyed the entry by the 32-character digest of the
arguments; the next cached get_event therefore hits the stale pre-write
dictionary instead of missing, and that stale dictionary differs from the
current one (its available_spots has not decreased). -/
theorem C3_stale_detail_after_rsvp :
    (create_rsvp bugDB bugCache 9 { event_id := 1 } 77).1
      = Except.ok { id := 77, user_id := 9, event_id := 1,
                    status := RSVPStatusEnum.going }
    ∧ (create_rsvp bugDB bugCache 9 { event_id := 1 } 77).2.2.store
      = [(cacheKey hexDigest32 "events:detail" [toString 1],
          CacheVal.detail (get_event bugDB 1))]
    ∧ (get_event_cached hexDigest32 false
          (create_rsvp bugDB bugCache 9 { event_id := 1 } 77).2.2
          (create_rsvp bugDB bugCache 9 { event_id := 1 } 77).2.1 1).1
        = get_event bugDB 1
    ∧ get_event bugDB 1
        ≠ get_event (create_rsvp bugDB bugCache 9 { event_id := 1 } 77).2.1 1 := by
  decide

/-! C4 — a failed push closes the socket but does not remove it. -/

/-- C4 counterexample: user "u" holds sockets 1 (whose send fails) and 2;
after send_personal_message the broken socket 1 is still registered under
"u", refuting "the failed channel is no longer registered afterward". -/
theorem C4_counterexample :
    twoSockMgr.sockets = [(1, { broken := true, received := [], closed := false }),
                          (2, { broken := false, received := [], closed := false })]
    ∧ (ConnectionManager.send_personal_message twoSockMgr "u" "hello").active
        = [("u", [1, 2])]
    ∧ 1 ∈ dictGet
        (ConnectionManager.send_personal_message twoSockMgr "u" "hello").active "u" := by
  decide

/-- C4 amended: when a push to one of a user's channels fails, that channel
is closed and delivery still proceeds to every remaining channel, but the
failed channel stays in the registry — send_personal_message never changes
the `active` map (removal happens only through disconnect). -/
theorem C4_send_fanout_keeps_registry :
    (∀ m u data,
        (ConnectionManager.send_personal_message m u data).active = m.active)
    ∧ (ConnectionManager.send_personal_message twoSockMgr "u" "hello").sockets
        = [(1, { broken := true, received := [], closed := true }),
           (2, { broken := false, received := ["hello"], closed := false })] :=
  ⟨fun _ _ _ => rfl, by decide⟩

/-! create_rsvp evaluation lemmas. -/

theorem capacityCheckFires_full (db : DB) (ev : Event) (payload : RSVPCreate)
    (hcap : capacityTruthyPositive ev.capacity = true)
    (hgoing : payload.status = RSVPStatusEnum.going)
    (hfull : ev.capacity.getD 0
        ≤ (get_event_rsvp_count db payload.event_id : Int)) :
    capacityCheckFires db ev payload = true := by
  simp [capacityCheckFires, hcap, hgoing, hfull]

theorem capacityCheckFires_not_going (db : DB) (ev : Event)
    (payload : RSVPCreate) (h : payload.status ≠ RSVPStatusEnum.going) :
    capacityCheckFires db ev payload = false := by
  have hb : (payload.status == RSVPStatusEnum.going) = false := by
    simp [h]
  simp [capacityCheckFires, hb]

theorem capacityCheckFires_below (db : DB) (ev : Event) (payload : RSVPCreate)
    (h : (get_event_rsvp_count db payload.event_id : Int)
        < ev.capacity.getD 0) :
    capacityCheckFires db ev payload = false := by
  have hb : ¬ (ev.capacity.getD 0
      ≤ (get_event_rsvp_count db payload.event_id : Int)) := not_le.mpr h
  simp [capacityCheckFires, hb]

theorem create_rsvp_capacity_error (db : DB) (st : RedisState) (uid : Nat)
    (payload : RSVPCreate) (nid : Nat) (ev : Event)
    (hev : db.events.find? (fun e => e.id == payload.event_id) = some ev)
    (hfire : capacityCheckFires db ev payload = true) :
    create_rsvp db st uid payload nid
      = (Except.error RSVPError.CapacityExceeded, db, st) := by
  simp [create_rsvp, hev, hfire]

theorem create_rsvp_duplicate_error (db : DB) (st : RedisState) (uid : Nat)
    (payload : RSVPCreate) (nid : Nat) (ev : Event)
    (hev : db.events.find? (fun e => e.id == payload.event_id) = some ev)
    (hfire : capacityCheckFires db ev payload = false)
    (hdup : db.rsvps.any
        (fun r => r.user_id == uid && r.event_id == payload.event_id) = true) :
    create_rsvp db st uid payload nid
      = (Except.error RSVPError.DuplicateRSVP, db, st) := by
  simp [create_rsvp, hev, hfire, hdup]

theorem create_rsvp_ok (db : DB) (st : RedisState) (uid : Nat)
    (payload : RSVPCreate) (nid : Nat) (ev : Event)
    (hev : db.events.find? (fun e => e.id == payload.event_id) = some ev)
    (hfire : capacityCheckFires db ev payload = false)
    (hdup : db.rsvps.any
        (fun r => r.user_id == uid && r.event_id == payload.event_id) = false) :
    create_rsvp db st uid payload nid
      = (Except.ok { id := nid, user_id := uid, event_id := payload.event_id,
                     status := payload.status },
         { db with rsvps := db.rsvps
             ++ [{ id := nid, user_id := uid, event_id := payload.event_id,
                   status := payload.status }] },
         (RedisCache.delete false
            (RedisCache.delete_pattern false st "events:list:*").1
            ("events:detail:" ++ toString payload.event_id)).1) := by
  simp [create_rsvp, hev, hfire, hdup]

theorem service_create_rsvp_error (db : DB) (st : RedisState) (uid : Nat)
    (payload : RSVPCreate) (nid : Nat) (e : RSVPError)
    (h : create_rsvp db st uid payload nid = (Except.error e, db, st)) :
    RSVPService.create_rsvp db st uid payload nid
      = (Except.error e, db, st, []) := by
  simp [RSVPService.create_rsvp, h]

/-! C1 — capacity enforcement on the write path. -/

/-- C1: when the event exists with a truthy positive capacity, the status
is "going" and the going count has reached capacity, the service call
fails with CapacityExceeded (HTTP 400), inserts no row, evicts nothing and
publishes nothing; and in the sequential capacity=1 scenario the first
user's going RSVP succeeds while a second, different user's going RSVP
fails with CapacityExceeded. -/
theorem C1_capacity_enforced (db : DB) (st : RedisState) (uid nid : Nat)
    (payload : RSVPCreate) (ev : Event)
    (hev : db.events.find? (fun e => e.id == payload.event_id) = some ev)
    (hcap : capacityTruthyPositive ev.capacity = true)
    (hgoing : payload.status = RSVPStatusEnum.going)
    (hfull : ev.capacity.getD 0
        ≤ (get_event_rsvp_count db payload.event_id : Int))
    (db1 : DB) (st1 : RedisState) (ev1 : Event) (uA uB n1 n2 : Nat)
    (hev1 : db1.events.find? (fun e => e.id == ev1.id) = some ev1)
    (hcap1 : ev1.capacity = some 1)
    (hcount1 : get_event_rsvp_count db1 ev1.id = 0)
    (hA : db1.rsvps.any
        (fun r => r.user_id == uA && r.event_id == ev1.id) = false)
    (_hAB : uA ≠ uB) :
    RSVPService.create_rsvp db st uid payload nid
      = (Except.error RSVPError.CapacityExceeded, db, st, [])
    ∧ RSVPError.httpStatus RSVPError.CapacityExceeded = 400
    ∧ (RSVPService.create_rsvp db1 st1 uA { event_id := ev1.id } n1).1
        = Except.ok { id := n1, user_id := uA, event_id := ev1.id,
                      status := RSVPStatusEnum.going }
    ∧ ((RSVPService.create_rsvp
          (RSVPService.create_rsvp db1 st1 uA { event_id := ev1.id } n1).2.1
          (RSVPService.create_rsvp db1 st1 uA { event_id := ev1.id } n1).2.2.1
          uB { event_id := ev1.id } n2)
        = (Except.error RSVPError.CapacityExceeded,
           (RSVPService.create_rsvp db1 st1 uA { event_id := ev1.id } n1).2.1,
           (RSVPService.create_rsvp db1 st1 uA { event_id := ev1.id } n1).2.2.1,
           [])) := by
  have hfirst : RSVPService.create_rsvp db st uid payload nid
      = (Except.error RSVPError.CapacityExceeded, db, st, []) :=
    service_create_rsvp_error db st uid payload nid RSVPError.CapacityExceeded
      (create_rsvp_capacity_error db st uid payload nid ev hev
        (capacityCheckFires_full db ev payload hcap hgoing hfull))
  have hfireA : capacityCheckFires db1 ev1 { event_id := ev1.id } = false := by
    apply capacityCheckFires_below
    rw [hcap1]
    simp [hcount1]
  have hokA := create_rsvp_ok db1 st1 uA { event_id := ev1.id } n1 ev1 hev1 hfireA hA
  have hsvcA : RSVPService.create_rsvp db1 st1 uA { event_id := ev1.id } n1
      = (Except.ok { id := n1, user_id := uA, event_id := ev1.id,
                     status := RSVPStatusEnum.going },
         { db1 with rsvps := db1.rsvps
             ++ [{ id := n1, user_id := uA, event_id := ev1.id,
                   status := RSVPStatusEnum.going }] },
         (RedisCache.delete false
            (RedisCache.delete_pattern false st1 "events:list:*").1
            ("events:detail:" ++ toString ev1.id)).1,
         [{ routing_key := "rsvp.created", typ := "rsvp.created",
            rsvp_id := n1, user_id := uA, event_id := ev1.id }]) := by
    simp [RSVPService.create_rsvp, hokA]
  set db2 : DB := { db1 with rsvps := db1.rsvps
      ++ [{ id := n1, user_id := uA, event_id := ev1.id,
            status := RSVPStatusEnum.going }] } with hdb2
  have hcount2 : get_event_rsvp_count db2 ev1.id = 1 := by
    rw [hdb2, get_event_rsvp_count_append, hcount1]
    simp
  have hfireB : capacityCheckFires db2 ev1 { event_id := ev1.id } = true := by
    apply capacityCheckFires_full
    · rw [hcap1]; rfl
    · rfl
    · rw [hcap1]
      simp [hcount2]
  have hsecond : RSVPService.create_rsvp db2
      (RedisCache.delete false
          (RedisCache.delete_pattern false st1 "events:list:*").1
          ("events:detail:" ++ toString ev1.id)).1
      uB { event_id := ev1.id } n2
      = (Except.error RSVPError.CapacityExceeded, db2,
         (RedisCache.delete false
            (RedisCache.delete_pattern false st1 "events:list:*").1
            ("events:detail:" ++ toString ev1.id)).1, []) := by
    apply service_create_rsvp_error
    exact create_rsvp_capacity_error _ _ _ _ _ ev1 hev1 hfireB
  refine ⟨hfirst, rfl, ?_, ?_⟩
  · rw [hsvcA]
  · rw [hsvcA]
    exact hsecond

theorem C1_capacity_enforced_witness :
    RSVPService.create_rsvp dupDB { store := [] } 11 { event_id := 1 } 99
      = (Except.error RSVPError.CapacityExceeded, dupDB, { store := [] }, []) :=
  (C1_capacity_enforced dupDB { store := [] } 11 99 { event_id := 1 }
    { id := 1, title := "Meetup", capacity := some 1, created_by := 5 }
    (by decide) (by decide) rfl (by decide)
    seqDB { store := [] }
    { id := 2, title := "Walk", capacity := some 1, created_by := 3 }
    21 22 31 32 (by decide) rfl (by decide) (by decide) (by decide)).1

/-! C2 — duplicate RSVPs and the uniqueness invariant. -/

theorem uniquePairs_append_one (l : List RSVP) (r : RSVP)
    (hl : uniquePairs l = true)
    (hr : l.any (fun x => samePair x r) = false) :
    uniquePairs (l ++ [r]) = true := by
  induction l with
  | nil => simp [uniquePairs]
  | cons a t ih =>
    simp only [List.any_cons, Bool.or_eq_false_iff] at hr
    rw [uniquePairs, Bool.and_eq_true] at hl
    rw [List.cons_append, uniquePairs, Bool.and_eq_true]
    constructor
    · have h1 : t.any (fun x => samePair x a) = false := by
        simpa using hl.1
      have h2 : samePair r a = false := by
        rw [samePair_comm]; exact hr.1
      simp [List.any_append, h1, h2]
    · exact ih hl.2 hr.2

/-- C2 counterexample: in `dupDB`, user 10 already holds a going RSVP on
the capacity-1 event 1, so a second createRSVP for the same (user, event)
pair fails — but with CapacityExceeded, not with the DuplicateRSVP the
claim requires: the capacity pre-check fires before the insert is ever
attempted. -/
theorem C2_counterexample :
    dupDB.rsvps.any (fun r => r.user_id == 10 && r.event_id == 1) = true
    ∧ (RSVPService.create_rsvp dupDB { store := [] } 10 { event_id := 1 } 99).1
        = Except.error RSVPError.CapacityExceeded
    ∧ Except.error RSVPError.CapacityExceeded
        ≠ (Except.error RSVPError.DuplicateRSVP : Except RSVPError RSVP) := by
  decide

/-- C2 amended: at most one RSVP row per (user, event) pair — the
constraint-backed check preserves the invariant across every createRSVP
outcome — and a second createRSVP for the same pair fails with
DuplicateRSVP (HTTP 409, distinct from the 400 of CapacityExceeded and the
404 of NotFound) with the stored state unchanged and nothing published,
whenever the capacity pre-check does not reject the call first; when that
pre-check fires (full event, "going" status) the repeat call fails with
CapacityExceeded instead. -/
theorem C2_unique_rsvp (db : DB) (st : RedisState) (uid nid : Nat)
    (payload : RSVPCreate) (ev : Event)
    (hev : db.events.find? (fun e => e.id == payload.event_id) = some ev)
    (hfire : capacityCheckFires db ev payload = false)
    (hdup : db.rsvps.any
        (fun r => r.user_id == uid && r.event_id == payload.event_id) = true) :
    RSVPService.create_rsvp db st uid payload nid
      = (Except.error RSVPError.DuplicateRSVP, db, st, [])
    ∧ RSVPError.httpStatus RSVPError.DuplicateRSVP = 409
    ∧ RSVPError.httpStatus RSVPError.CapacityExceeded = 400
    ∧ RSVPError.httpStatus RSVPError.NotFound = 404
    ∧ (∀ db2 st2 uid2 pay2 nid2,
        uniquePairs db2.rsvps = true →
        uniquePairs (create_rsvp db2 st2 uid2 pay2 nid2).2.1.rsvps = true) := by
  refine ⟨?_, rfl, rfl, rfl, ?_⟩
  · exact service_create_rsvp_error db st uid payload nid RSVPError.DuplicateRSVP
      (create_rsvp_duplicate_error db st uid payload nid ev hev hfire hdup)
  · intro db2 st2 uid2 pay2 nid2 hu
    cases hf : db2.events.find? (fun e => e.id == pay2.event_id) with
    | none => simpa [create_rsvp, hf] using hu
    | some ev2 =>
      by_cases hfire2 : capacityCheckFires db2 ev2 pay2 = true
      · simpa [create_rsvp, hf, hfire2] using hu
      · have hfire2f : capacityCheckFires db2 ev2 pay2 = false :=
          Bool.not_eq_true _ ▸ hfire2
        cases hdup2 : db2.rsvps.any
            (fun r => r.user_id == uid2 && r.event_id == pay2.event_id) with
        | true => simpa [create_rsvp, hf, hfire2f, hdup2] using hu
        | false =>
          rw [create_rsvp_ok db2 st2 uid2 pay2 nid2 ev2 hf hfire2f hdup2]
          apply uniquePairs_append_one _ _ hu
          simpa [samePair] using hdup2

theorem C2_unique_rsvp_witness :
    RSVPService.create_rsvp
        { events := [{ id := 4, title := "Tea", capacity := some 0,
                       created_by := 1 }],
          rsvps := [{ id := 5, user_id := 6, event_id := 4,
                      status := RSVPStatusEnum.going }] }
        { store := [] } 6 { event_id := 4 } 50
      = (Except.error RSVPError.DuplicateRSVP,
         { events := [{ id := 4, title := "Tea", capacity := some 0,
                        created_by := 1 }],
           rsvps := [{ id := 5, user_id := 6, event_id := 4,
                       status := RSVPStatusEnum.going }] },
         { store := [] }, []) :=
  (C2_unique_rsvp _ _ 6 50 { event_id := 4 }
    { id := 4, title := "Tea", capacity := some 0, created_by := 1 }
    (by decide) (by decide) (by decide)).1

/-! C6 — the going count ignores other statuses. -/

/-- C6: the going count is total and non-negative for every event id (rows
of absent events included), counts only rows whose status is going —
appending a non-going row never changes it — and on a capacity-1 event
with no going RSVPs, user A's "interested" RSVP does not block user B's
subsequent "going" RSVP. -/
theorem C6_going_count (db : DB) (event_id : Nat) (r : RSVP)
    (hr : r.status ≠ RSVPStatusEnum.going)
    (db1 : DB) (st1 : RedisState) (ev1 : Event) (uA uB n1 n2 : Nat)
    (hev1 : db1.events.find? (fun e => e.id == ev1.id) = some ev1)
    (hcap1 : ev1.capacity = some 1)
    (hcount1 : get_event_rsvp_count db1 ev1.id = 0)
    (hA : db1.rsvps.any
        (fun x => x.user_id == uA && x.event_id == ev1.id) = false)
    (hB : db1.rsvps.any
        (fun x => x.user_id == uB && x.event_id == ev1.id) = false)
    (hAB : uA ≠ uB) :
    0 ≤ get_event_rsvp_count db event_id
    ∧ get_event_rsvp_count { db with rsvps := db.rsvps ++ [r] } event_id
        = get_event_rsvp_count db event_id
    ∧ (create_rsvp db1 st1 uA
        { event_id := ev1.id, status := RSVPStatusEnum.interested } n1).1
      = Except.ok { id := n1, user_id := uA, event_id := ev1.id,
                    status := RSVPStatusEnum.interested }
    ∧ (create_rsvp
        (create_rsvp db1 st1 uA
          { event_id := ev1.id, status := RSVPStatusEnum.interested } n1).2.1
        (create_rsvp db1 st1 uA
          { event_id := ev1.id, status := RSVPStatusEnum.interested } n1).2.2
        uB { event_id := ev1.id } n2).1
      = Except.ok { id := n2, user_id := uB, event_id := ev1.id,
                    status := RSVPStatusEnum.going } := by
  have hfireA : capacityCheckFires db1 ev1
      { event_id := ev1.id, status := RSVPStatusEnum.interested } = false :=
    capacityCheckFires_not_going db1 ev1
      { event_id := ev1.id, status := RSVPStatusEnum.interested }
      (fun h => RSVPStatusEnum.noConfusion h)
  have hokA := create_rsvp_ok db1 st1 uA
    { event_id := ev1.id, status := RSVPStatusEnum.interested } n1 ev1
    hev1 hfireA hA
  set rA : RSVP := { id := n1, user_id := uA, event_id := ev1.id,
                     status := RSVPStatusEnum.interested } with hrA
  set db2 : DB := { db1 with rsvps := db1.rsvps ++ [rA] } with hdb2
  have hcount2 : get_event_rsvp_count db2 ev1.id = 0 := by
    rw [hdb2, get_event_rsvp_count_append, hcount1, hrA]
    simp
  have hfireB : capacityCheckFires db2 ev1 { event_id := ev1.id } = false := by
    apply capacityCheckFires_below
    rw [hcap1, hcount2]
    simp
  have hdupB : db2.rsvps.any
      (fun x => x.user_id == uB && x.event_id == ev1.id) = false := by
    rw [hdb2]
    show (db1.rsvps ++ [rA]).any
      (fun x => x.user_id == uB && x.event_id == ev1.id) = false
    rw [List.any_append, hB, hrA]
    have huab : (uA == uB) = false := by simp [hAB]
    simp [huab]
  have hokB := create_rsvp_ok db2
    (RedisCache.delete false
      (RedisCache.delete_pattern false st1 "events:list:*").1
      ("events:detail:" ++ toString ev1.id)).1
    uB { event_id := ev1.id } n2 ev1 hev1 hfireB hdupB
  refine ⟨Nat.zero_le _, ?_, ?_, ?_⟩
  · rw [get_event_rsvp_count_append]
    have hfr : (r.status == RSVPStatusEnum.going) = false := by simp [hr]
    simp [hfr]
  · rw [hokA]
  · rw [hokA]
    simp only []
    rw [hokB]

theorem C6_going_count_witness :
    (create_rsvp seqDB { store := [] } 41
        { event_id := 2, status := RSVPStatusEnum.interested } 51).1
      = Except.ok { id := 51, user_id := 41, event_id := 2,
                    status := RSVPStatusEnum.interested }
    ∧ (create_rsvp
        (create_rsvp seqDB { store := [] } 41
          { event_id := 2, status := RSVPStatusEnum.interested } 51).2.1
        (create_rsvp seqDB { store := [] } 41
          { event_id := 2, status := RSVPStatusEnum.interested } 51).2.2
        42 { event_id := 2 } 52).1
      = Except.ok { id := 52, user_id := 42, event_id := 2,
                    status := RSVPStatusEnum.going } :=
  have h := C6_going_count seqDB 0
    { id := 53, user_id := 43, event_id := 2,
      status := RSVPStatusEnum.cancelled }
    (by decide) seqDB { store := [] }
    { id := 2, title := "Walk", capacity := some 1, created_by := 3 }
    41 42 51 52 (by decide) rfl (by decide) (by decide) (by decide)
    (by decide)
  ⟨h.2.2.1, h.2.2.2⟩

/-! C5 — exactly one push to the owner and one confirmation per consumed
rsvp.created message. -/

/-- C5: consuming a rsvp.created message whose referenced event and event
owner both exist makes exactly two send_personal_message calls: the one
and only notification push goes to the event owner, and the one and only
confirmation push goes to the RSVP user. -/
theorem C5_consume_fanout (db : DB) (body : NotifBody) (ev : Event)
    (owner : User)
    (htyp : body.typ = "rsvp.created")
    (hev : db.events.find? (fun e => e.id == body.event_id) = some ev)
    (_howner : db.users.find? (fun u => u.id == ev.created_by) = some owner) :
    handle_message db body
      = [(ev.created_by,
          PushPayload.rsvpCreated body.event_id ev.title
            ((db.users.find? (fun u => u.id == body.user_id)).map
              (fun u => u.email))),
         (body.user_id, PushPayload.rsvpConfirmation ev.title)]
    ∧ ((handle_message db body).filter
        (fun q => q.1 == ev.created_by && q.2.isNotif)).length = 1
    ∧ ((handle_message db body).filter
        (fun q => q.1 == body.user_id && q.2.isConf)).length = 1 := by
  have hmain : handle_message db body
      = [(ev.created_by,
          PushPayload.rsvpCreated body.event_id ev.title
            ((db.users.find? (fun u => u.id == body.user_id)).map
              (fun u => u.email))),
         (body.user_id, PushPayload.rsvpConfirmation ev.title)] := by
    simp [handle_message, htyp, hev]
  refine ⟨hmain, ?_, ?_⟩
  · rw [hmain]
    simp [PushPayload.isNotif, PushPayload.isConf, List.filter]
  · rw [hmain]
    simp [PushPayload.isNotif, PushPayload.isConf, List.filter]

theorem C5_consume_fanout_witness :
    handle_message
        { users := [{ id := 2, email := "owner@example.com" },
                    { id := 3, email := "alice@example.com" }],
          events := [{ id := 1, title := "Meetup", capacity := some 5,
                       created_by := 2 }] }
        { typ := "rsvp.created", event_id := 1, user_id := 3 }
      = [(2, PushPayload.rsvpCreated 1 "Meetup" (some "alice@example.com")),
         (3, PushPayload.rsvpConfirmation "Meetup")] :=
  have h := C5_consume_fanout
    { users := [{ id := 2, email := "owner@example.com" },
                { id := 3, email := "alice@example.com" }],
      events := [{ id := 1, title := "Meetup", capacity := some 5,
                   created_by := 2 }] }
    { typ := "rsvp.created", event_id := 1, user_id := 3 }
    { id := 1, title := "Meetup", capacity := some 5, created_by := 2 }
    { id := 2, email := "owner@example.com" }
    rfl (by decide) (by decide)
  h.1.trans (by decide)

/-! C9 — the registry never maps a user to an empty socket list. -/

theorem find?_mapSet (t : List (String × List Nat)) (k : String)
    (v : List Nat) (hk : dictHasKey t k = true) :
    (t.map (fun p => if p.1 == k then (k, v) else p)).find?
        (fun p => p.1 == k) = some (k, v) := by
  induction t with
  | nil => simp [dictHasKey] at hk
  | cons a t ih =>
    cases ha : (a.1 == k) with
    | true =>
      rw [List.map_cons, if_pos ha]
      exact List.find?_cons_of_pos _ (by simp)
    | false =>
      have ht : dictHasKey t k = true := by
        simpa [dictHasKey, ha] using hk
      rw [List.map_cons, if_neg (by simp [ha])]
      rw [List.find?_cons_of_neg _ (by simp [ha])]
      exact ih ht

theorem find?_key_append_single (d : List (String × List Nat)) (k : String)
    (v : List Nat) (hk : dictHasKey d k = false) :
    (d ++ [(k, v)]).find? (fun p => p.1 == k) = some (k, v) := by
  induction d with
  | nil => simp
  | cons a t ih =>
    obtain ⟨ha, ht⟩ : (a.1 == k) = false ∧ dictHasKey t k = false := by
      simpa [dictHasKey, Bool.or_eq_false_iff] using hk
    rw [List.cons_append, List.find?_cons_of_neg _ (by simp [ha])]
    exact ih ht

theorem dictGet_dictSet (d : List (String × List Nat)) (k : String)
    (v : List Nat) : dictGet (dictSet d k v) k = v := by
  by_cases hk : dictHasKey d k = true
  · rw [dictSet, if_pos hk, dictGet, find?_mapSet d k v hk]
  · have hkf : dictHasKey d k = false := Bool.not_eq_true _ ▸ hk
    rw [dictSet, if_neg hk, dictGet, find?_key_append_single d k v hkf]

theorem find?_dictPop (d : List (String × List Nat)) (k : String) :
    (dictPop d k).find? (fun p => p.1 == k) = none := by
  rw [List.find?_eq_none]
  intro p hp
  have h2 := (List.mem_filter.mp hp).2
  simpa using h2

theorem dictGet_dictPop (d : List (String × List Nat)) (k : String) :
    dictGet (dictPop d k) k = [] := by
  rw [dictGet, find?_dictPop]

theorem dictHasKey_dictPop (d : List (String × List Nat)) (k : String) :
    dictHasKey (dictPop d k) k = false := by
  rw [dictHasKey, List.any_eq_false]
  intro p hp
  have h2 := (List.mem_filter.mp hp).2
  simpa using h2

theorem mem_dictSet (d : List (String × List Nat)) (k : String)
    (v : List Nat) (e : String × List Nat) (he : e ∈ dictSet d k v) :
    e ∈ d ∨ e = (k, v) := by
  rw [dictSet] at he
  by_cases hk : dictHasKey d k = true
  · rw [if_pos hk] at he
    obtain ⟨p, hp, hf⟩ := List.mem_map.mp he
    cases hpk : (p.1 == k) with
    | true =>
      right
      rw [← hf, if_pos hpk]
    | false =>
      left
      rw [← hf, if_neg (by simp [hpk])]
      exact hp
  · rw [if_neg hk] at he
    rcases List.mem_append.mp he with h | h
    · left; exact h
    · right; simpa using h

theorem disconnect_dictGet (m : ManagerState) (u : String) (w : Nat) :
    dictGet (ConnectionManager.disconnect m u w).active u
      = (dictGet m.active u).erase w := by
  by_cases hc : ((dictGet m.active u).erase w).isEmpty = true
  · have h1 : ConnectionManager.disconnect m u w
        = { m with active := dictPop m.active u } := by
      simp only [ConnectionManager.disconnect]
      rw [if_pos hc]
    rw [h1]
    show dictGet (dictPop m.active u) u = _
    rw [dictGet_dictPop]
    exact (List.isEmpty_iff.mp hc).symm
  · have h1 : ConnectionManager.disconnect m u w
        = { m with active :=
              dictSet m.active u ((dictGet m.active u).erase w) } := by
      simp only [ConnectionManager.disconnect]
      rw [if_neg hc]
    rw [h1]
    exact dictGet_dictSet _ _ _

theorem disconnect_removes_user (m : ManagerState) (u : String) (w : Nat)
    (h : (dictGet m.active u).erase w = []) :
    dictHasKey (ConnectionManager.disconnect m u w).active u = false := by
  have hc : ((dictGet m.active u).erase w).isEmpty = true := by simp [h]
  have h1 : ConnectionManager.disconnect m u w
      = { m with active := dictPop m.active u } := by
    simp only [ConnectionManager.disconnect]
    rw [if_pos hc]
  rw [h1]
  exact dictHasKey_dictPop _ _

theorem registryWF_applyRegOp (m : ManagerState) (op : RegOp)
    (h : registryWF m = true) : registryWF (applyRegOp m op) = true := by
  have hall := List.all_eq_true.mp h
  cases op with
  | connect u w =>
    simp only [applyRegOp, ConnectionManager.connect, registryWF]
    rw [List.all_eq_true]
    intro e he
    rcases mem_dictSet _ _ _ _ he with hd | hkv
    · exact hall e hd
    · subst hkv; simp
  | disconnect u w =>
    by_cases hc : ((dictGet m.active u).erase w).isEmpty = true
    · have h1 : applyRegOp m (RegOp.disconnect u w)
          = { m with active := dictPop m.active u } := by
        simp only [applyRegOp, ConnectionManager.disconnect]
        rw [if_pos hc]
      rw [h1, registryWF, List.all_eq_true]
      intro e he
      exact hall e (List.mem_of_mem_filter he)
    · have h1 : applyRegOp m (RegOp.disconnect u w)
          = { m with active :=
                dictSet m.active u ((dictGet m.active u).erase w) } := by
        simp only [applyRegOp, ConnectionManager.disconnect]
        rw [if_neg hc]
      rw [h1, registryWF, List.all_eq_true]
      intro e he
      rcases mem_dictSet _ _ _ _ he with hd | hkv
      · exact hall e hd
      · subst hkv
        have hf : ((dictGet m.active u).erase w).isEmpty = false :=
          Bool.not_eq_true _ ▸ hc
        simp [hf]

theorem registryWF_applyRegOps (ops : List RegOp) (m : ManagerState)
    (h : registryWF m = true) : registryWF (applyRegOps m ops) = true := by
  induction ops generalizing m with
  | nil => exact h
  | cons op t ih =>
    show registryWF (applyRegOps (applyRegOp m op) t) = true
    exact ih (applyRegOp m op) (registryWF_applyRegOp m op h)

/-- C9: disconnect removes the given socket from the user's list and drops
the user's entry entirely when no sockets remain; and starting from the
empty registry, no sequence of connect/disconnect operations ever leaves
any user mapped to an empty socket list. -/
theorem C9_registry_never_empty (m : ManagerState) (u : String) (w : Nat)
    (ops : List RegOp) (e : String × List Nat)
    (hmem : e ∈ (applyRegOps { } ops).active) :
    e.2 ≠ []
    ∧ dictGet (ConnectionManager.disconnect m u w).active u
        = (dictGet m.active u).erase w
    ∧ ((dictGet m.active u).erase w = [] →
        dictHasKey (ConnectionManager.disconnect m u w).active u = false) := by
  refine ⟨?_, disconnect_dictGet m u w, disconnect_removes_user m u w⟩
  have hwf : registryWF (applyRegOps { } ops) = true :=
    registryWF_applyRegOps ops { } rfl
  have h2 := List.all_eq_true.mp hwf e hmem
  intro hnil
  rw [hnil] at h2
  exact Bool.noConfusion h2

theorem C9_registry_never_empty_witness :
    dictGet (ConnectionManager.disconnect twoSockMgr "u" 1).active "u"
      = (dictGet twoSockMgr.active "u").erase 1 :=
  (C9_registry_never_empty twoSockMgr "u" 1 [RegOp.connect "u" 1] ("u", [1])
    (by decide)).2.1

/-! C10 — available_spots is clamped at zero and null for no capacity. -/

theorem get_event_eq (db : DB) (eid : Nat) (ev : Event)
    (hf : db.events.find? (fun e => e.id == eid) = some ev) :
    get_event db eid = some (eventToView db ev) := by
  rw [get_event, hf]

/-- C10: every view get_event or list_events returns carries
available_spots computed as max(0, capacity − going count) — so some value
v is always non-negative and equals that clamp for a positive capacity —
while a missing or zero capacity yields null (unlimited). -/
theorem C10_available_spots (db : DB) (eid lim off : Nat) (cb : Option Nat)
    (view : EventView) (c : Option Int) (n : Nat) (v : Int) :
    (get_event db eid = some view →
        view.available_spots
          = available_spots view.capacity (get_event_rsvp_count db eid))
    ∧ (view ∈ list_events db lim off cb →
        view.available_spots
          = available_spots view.capacity (get_event_rsvp_count db view.id))
    ∧ (available_spots c n = some v →
        0 ≤ v ∧ ∃ cv, c = some cv ∧ 0 < cv ∧ v = max 0 (cv - (n : Int)))
    ∧ available_spots none n = none
    ∧ available_spots (some 0) n = none := by
  refine ⟨?_, ?_, ?_, rfl, ?_⟩
  · intro h
    cases hf : db.events.find? (fun e => e.id == eid) with
    | none =>
      rw [get_event, hf] at h
      exact Option.noConfusion h
    | some ev =>
      rw [get_event_eq db eid ev hf] at h
      injection h with hv
      have hid : ev.id = eid := by simpa using List.find?_some hf
      rw [← hv]
      show available_spots ev.capacity (get_event_rsvp_count db ev.id)
        = available_spots ev.capacity (get_event_rsvp_count db eid)
      rw [hid]
  · intro h
    simp only [list_events] at h
    obtain ⟨ev, _hmem, hv⟩ := List.mem_map.mp h
    rw [← hv]
    rfl
  · intro h
    cases c with
    | none =>
      rw [available_spots] at h
      exact Option.noConfusion h
    | some cv =>
      rw [available_spots] at h
      by_cases hcond : (cv != 0 && decide (0 < cv)) = true
      · rw [if_pos hcond] at h
        injection h with hveq
        rw [Bool.and_eq_true] at hcond
        have hcv : 0 < cv := of_decide_eq_true hcond.2
        refine ⟨?_, cv, rfl, hcv, hveq.symm⟩
        rw [← hveq]
        exact le_max_left 0 _
      · rw [if_neg hcond] at h
        exact Option.noConfusion h
  · simp [available_spots]

end SiliconSavannah
